import Mathlib

/-!
Shallow embedding of the cryptocadet-shopify-v2 repository.

The repository is a Shopify app: an Express server (`src/server.js`, plus a
near-duplicate earlier server revision embedded in
`src/extensions/checkout-extension.js`) with JSON-file persistence of per-shop
merchant configs and OAuth access tokens, webhook endpoints, and browser-side
scripts that inject a "Pay with Crypto" button.

Conventions of the embedding:
* JavaScript values that can live in the JSON files are modelled by `JsVal`.
  A JS object is an association list with *first-match* lookup; spreading a
  later object over an earlier one prepends its fields, so the override
  semantics of `\x7b ...a, ...b \x7d` (later keys win) is preserved for lookup.
* `undefined` is represented by `Option.none` at use sites (a missing property
  or a missing query parameter), never as a `JsVal`.
* The JSON files on disk are modelled by `FileState`: absent, unparseable, or
  parsed content.  `JSON.parse (JSON.stringify m)` is the identity on the
  value domain modelled here, so a written map is read back unchanged.
* Effects (the HTTP fetch of the OAuth token exchange, the GraphQL request)
  are oracles passed as function arguments; handlers return a record of the
  response, the resulting file state and which effects were invoked.
* Machine integers: SHA-256 words are `Nat` reduced `% 2^32` explicitly.
-/

namespace Cryptocadet

/-- A JavaScript/JSON value as it can appear in `merchant-configs.json` or
`shop-tokens.json`. -/
inductive JsVal where
  | vNull
  | vBool (b : Bool)
  | vNum (n : Int)
  | vStr (s : String)
  | vArr (elems : List JsVal)
  | vObj (fields : List (String × JsVal))

/-- Property access on a JS value: only objects have (modelled) properties;
`undefined` results are `none`. -/
def JsVal.lookup : JsVal → String → Option JsVal
  | .vObj fields, k => fields.lookup k
  | _, _ => none

/-- JavaScript truthiness of a value (`NaN` does not arise in this model;
numbers are integers). -/
def jsTruthy : JsVal → Bool
  | .vNull => false
  | .vBool b => b
  | .vNum n => n != 0
  | .vStr s => s != ""
  | .vArr _ => true
  | .vObj _ => true

/-- `expr || null` for a possibly-`undefined` expression: a truthy value
passes through, everything else becomes `null` (modelled as `none`). -/
def jsOrNull : Option JsVal → Option JsVal
  | some v => if jsTruthy v then some v else none
  | none => none

/-- Optional chaining `v?.k`: `null`/`undefined` short-circuit to `undefined`,
any other value is subject to property access. -/
def jsOptChain : Option JsVal → String → Option JsVal
  | none, _ => none
  | some .vNull, _ => none
  | some v, k => v.lookup k

/-- Truthiness of an Express query parameter / body field (`string` or
`undefined`): `!x` is true exactly when the parameter is missing or `""`. -/
def jsTruthyStr : Option String → Bool
  | none => false
  | some s => s != ""

/-- The fields spread by `\x7b ...v \x7d`: objects contribute their fields,
strings and arrays contribute index-keyed entries, primitives contribute
nothing. -/
def spreadFields : Option JsVal → List (String × JsVal)
  | some (.vObj fields) => fields
  | some (.vStr s) => (s.toList.enum).map (fun p => (toString p.1, .vStr (String.mk [p.2])))
  | some (.vArr elems) => (elems.enum).map (fun p => (toString p.1, p.2))
  | _ => []

/-- State of one of the JSON files on disk.  `readFile` rejects an absent
file, `JSON.parse` rejects an unparseable one; both are caught by the
storage functions. -/
inductive FileState where
  | absent
  | unparseable
  | parsed (m : List (String × JsVal))

/-- The map recovered from a file by `readFile` + `JSON.parse`, with the
`catch (_) \x7b\x7d` of the store functions: any failure leaves `\x7b\x7d`. -/
def FileState.mapOrEmpty : FileState → List (String × JsVal)
  | .parsed m => m
  | _ => []

/-- `storeMerchantConfig(shop, config)` from `src/server.js` (lines 77-87).
Reads `merchant-configs.json` (empty object on failure), sets
`configs[shop] = \x7b ...configs[shop], ...config, shop, updated_at \x7d`,
writes the file back, and returns `configs[shop]`.  `now` is the ISO
timestamp `new Date().toISOString()`.  Returns the new file state and the
returned record. -/
def storeMerchantConfig (file : FileState) (shop : String)
    (config : List (String × JsVal)) (now : String) : FileState × JsVal :=
  let configs := file.mapOrEmpty
  let newRec : List (String × JsVal) :=
    ("updated_at", .vStr now) :: ("shop", .vStr shop) ::
      (config ++ spreadFields (configs.lookup shop))
  (.parsed ((shop, .vObj newRec) :: configs), .vObj newRec)

/-- `getMerchantConfig(shop)` from `src/server.js` (lines 89-98): reads and
parses `merchant-configs.json` and returns `configs[shop] || null`; any
read/parse error is caught and yields `null`. -/
def getMerchantConfig (file : FileState) (shop : String) : Option JsVal :=
  match file with
  | .parsed configs => jsOrNull (configs.lookup shop)
  | _ => none

/-- `storeShopToken(shop, accessToken)` from `src/server.js` (lines 100-114):
reads `shop-tokens.json` (empty object on failure), sets
`tokens[shop] = \x7b access_token, shop, created_at \x7d` and writes the file
back.  The access token is kept as a `JsVal` (the OAuth handler passes
`tokenData.access_token` through unchanged). -/
def storeShopToken (file : FileState) (shop : String) (accessToken : JsVal)
    (now : String) : FileState :=
  let tokens := file.mapOrEmpty
  .parsed ((shop, .vObj
    [("access_token", accessToken), ("shop", .vStr shop), ("created_at", .vStr now)])
    :: tokens)

/-- `getShopAccessToken(shop)` from `src/server.js` (lines 118-138): reads and
parses `shop-tokens.json` and returns `tokens[shop]?.access_token || null`;
any error is caught and yields `null`.  (The `console.log` calls have no
effect on the result.) -/
def getShopAccessToken (file : FileState) (shop : String) : Option JsVal :=
  match file with
  | .parsed tokens => jsOrNull (jsOptChain (tokens.lookup shop) "access_token")
  | _ => none

/-!
## SHA-256, HMAC-SHA256 and base64

`verifyShopifyWebhook` (earlier server revision, embedded in
`src/extensions/checkout-extension.js`, lines 263-269 of that file) calls
Node's `crypto.createHmac('sha256', secret).update(data).digest('base64')`.
The platform primitives are implemented here concretely (FIPS 180-4 SHA-256,
RFC 2104 HMAC, RFC 4648 base64); test-vector theorems at the end of the file
pin them to the standard values.  Byte strings are `List Nat` with entries
below 256; words are `Nat` reduced `% 2^32`.
-/

/-- `2^32`, the SHA-256 word modulus. -/
def w32 : Nat := 4294967296

/-- Rotate the 32-bit word `x` right by `n` bit positions. -/
def rotr (n x : Nat) : Nat := ((x >>> n) ||| (x <<< (32 - n))) % w32

/-- The 64 round constants of the SHA-256 compression function (FIPS
180-4 section 4.2.2), written in decimal. -/
def shaK : List Nat :=
  [1116352408, 1899447441, 3049323471, 3921009573, 961987163, 1508970993,
   2453635748, 2870763221, 3624381080, 310598401, 607225278, 1426881987,
   1925078388, 2162078206, 2614888103, 3248222580, 3835390401, 4022224774,
   264347078, 604807628, 770255983, 1249150122, 1555081692, 1996064986,
   2554220882, 2821834349, 2952996808, 3210313671, 3336571891, 3584528711,
   113926993, 338241895, 666307205, 773529912, 1294757372, 1396182291,
   1695183700, 1986661051, 2177026350, 2456956037, 2730485921, 2820302411,
   3259730800, 3345764771, 3516065817, 3600352804, 4094571909, 275423344,
   430227734, 506948616, 659060556, 883997877, 958139571, 1322822218,
   1537002063, 1747873779, 1955562222, 2024104815, 2227730452, 2361852424,
   2428436474, 2756734187, 3204031479, 3329325298]

/-- The initial hash state of SHA-256 (FIPS 180-4 section 5.3.3), in
decimal. -/
def shaH0 : List Nat :=
  [1779033703, 3144134277, 1013904242, 2773480762, 1359893119, 2600822924,
   528734635, 1541459225]

/-- Big-endian byte representation of `x` in `n` bytes. -/
def toBytesBE : Nat → Nat → List Nat
  | 0, _ => []
  | n + 1, x => toBytesBE n (x / 256) ++ [x % 256]

/-- SHA-256 padding: append `0x80`, zeros to 56 mod 64, then the bit length
as a 64-bit big-endian integer. -/
def padMessage (msg : List Nat) : List Nat :=
  let len := msg.length
  let k := (119 - len % 64) % 64
  msg ++ 0x80 :: List.replicate k 0 ++ toBytesBE 8 ((8 * len) % 2 ^ 64)

/-- Group bytes into big-endian 32-bit words. -/
def toWords : List Nat → List Nat
  | b0 :: b1 :: b2 :: b3 :: rest => (((b0 * 256 + b1) * 256 + b2) * 256 + b3) :: toWords rest
  | _ => []

/-- The next word of the SHA-256 message schedule, computed from the last
sixteen words of the schedule built so far. -/
def nextWord (w : List Nat) : Nat :=
  let i := w.length
  let g := fun j => w.getD (i - j) 0
  let s0 := (rotr 7 (g 15)) ^^^ (rotr 18 (g 15)) ^^^ ((g 15) >>> 3)
  let s1 := (rotr 17 (g 2)) ^^^ (rotr 19 (g 2)) ^^^ ((g 2) >>> 10)
  (g 16 + s0 + g 7 + s1) % w32

/-- Extend the 16-word schedule by `n` further words. -/
def extendWords : Nat → List Nat → List Nat
  | 0, w => w
  | n + 1, w => extendWords n (w ++ [nextWord w])

/-- One SHA-256 compression round; the state is the word list
`[a, b, c, d, e, f, g, h]` and `wk` the (schedule word, round constant)
pair.  `w32 - 1 - e` is the 32-bit complement of `e`. -/
def shaRound (st : List Nat) (wk : Nat × Nat) : List Nat :=
  match st with
  | [a, b, c, d, e, f, g, h] =>
    let S1 := (rotr 6 e) ^^^ (rotr 11 e) ^^^ (rotr 25 e)
    let ch := (e &&& f) ^^^ ((w32 - 1 - e) &&& g)
    let temp1 := (h + S1 + ch + wk.2 + wk.1) % w32
    let S0 := (rotr 2 a) ^^^ (rotr 13 a) ^^^ (rotr 22 a)
    let maj := (a &&& b) ^^^ (a &&& c) ^^^ (b &&& c)
    let temp2 := (S0 + maj) % w32
    [(temp1 + temp2) % w32, a, b, c, (d + temp1) % w32, e, f, g]
  | _ => st

/-- Compress one 64-byte chunk into the running hash state. -/
def compressChunk (h : List Nat) (chunk : List Nat) : List Nat :=
  let ws := extendWords 48 (toWords chunk)
  let fin := (ws.zip shaK).foldl shaRound h
  (h.zip fin).map (fun p => (p.1 + p.2) % w32)

/-- Split a byte list into 64-byte chunks.  The fuel argument (the list
length bounds the number of chunks) keeps the recursion structural so that
the function reduces definitionally. -/
def chunksOf64Go : Nat → List Nat → List (List Nat)
  | 0, _ => []
  | _, [] => []
  | fuel + 1, x :: rest => (x :: rest).take 64 :: chunksOf64Go fuel ((x :: rest).drop 64)

/-- Split a byte list into 64-byte chunks. -/
def chunksOf64 (l : List Nat) : List (List Nat) := chunksOf64Go l.length l

/-- SHA-256 of a byte string, as 32 bytes. -/
def sha256 (msg : List Nat) : List Nat :=
  ((chunksOf64 (padMessage msg)).foldl compressChunk shaH0).foldr
    (fun wrd acc => toBytesBE 4 wrd ++ acc) []

/-- HMAC-SHA256 (RFC 2104) of `msg` under `key`, as 32 bytes. -/
def hmacSha256 (key msg : List Nat) : List Nat :=
  let k0 := if 64 < key.length then sha256 key else key
  let kpad := k0 ++ List.replicate (64 - k0.length) 0
  sha256 ((kpad.map (· ^^^ 0x5c)) ++ sha256 ((kpad.map (· ^^^ 0x36)) ++ msg))

/-- The base64 alphabet. -/
def b64Alphabet : List Char :=
  "ABCDEFGHIJKLMNOPQRSTUVWXYZabcdefghijklmnopqrstuvwxyz0123456789+/".toList

/-- The base64 digit for a 6-bit value. -/
def b64Char (n : Nat) : Char := b64Alphabet.getD n 'A'

/-- Standard base64 encoding (RFC 4648) with `=` padding, as produced by
Node's `digest('base64')`. -/
def base64Encode : List Nat → String
  | [] => ""
  | [a] =>
    String.mk [b64Char (a / 4), b64Char (a % 4 * 16)] ++ "=="
  | [a, b] =>
    String.mk [b64Char (a / 4), b64Char (a % 4 * 16 + b / 16), b64Char (b % 16 * 4)] ++ "="
  | a :: b :: c :: rest =>
    String.mk [b64Char (a / 4), b64Char (a % 4 * 16 + b / 16),
               b64Char (b % 16 * 4 + c / 64), b64Char (c % 64)] ++ base64Encode rest

/-- `verifyShopifyWebhook(data, hmacHeader)` from the earlier server revision
(`src/extensions/checkout-extension.js` embedded server, lines 263-269):
computes `crypto.createHmac('sha256', SHOPIFY_WEBHOOK_SECRET).update(data,
'utf8').digest('base64')` and compares it to the header with `===`.
`secret` is the UTF-8 byte string of `process.env.SHOPIFY_WEBHOOK_SECRET`
and `data` the raw request body bytes. -/
def verifyShopifyWebhook (secret data : List Nat) (hmacHeader : String) : Bool :=
  base64Encode (hmacSha256 secret data) == hmacHeader

/-!
## Webhook endpoints

`src/server.js` (lines 799-817) registers the webhook routes with
`express.raw`, logs, and responds `200 'OK'` unconditionally; no handler in
that file calls `verifyShopifyWebhook` (the file imports `crypto` but never
uses it).  The earlier server revision embedded in
`src/extensions/checkout-extension.js` (lines 926-949 of that file) checks
the `X-Shopify-Hmac-Sha256` header against the raw body and responds
`401 'Unauthorized'` on failure.
-/

/-- An HTTP response: status code and body text. -/
structure HttpResponse where
  status : Nat
  body : String

/-- A webhook request as seen by the raw-body handlers: the raw body bytes
and the `X-Shopify-Hmac-Sha256` header (absent headers are `none`). -/
structure WebhookRequest where
  body : List Nat
  hmacHeader : Option String

/-- `POST /webhooks/orders/create` from `src/server.js` (lines 799-802):
logs and responds `200 'OK'` for every request. -/
def ordersCreateHandler (_req : WebhookRequest) : HttpResponse := ⟨200, "OK"⟩

/-- `POST /webhooks/app/uninstalled` from `src/server.js` (lines 814-817):
logs and responds `200 'OK'` for every request. -/
def appUninstalledHandler (_req : WebhookRequest) : HttpResponse := ⟨200, "OK"⟩

/-- The HMAC check of the earlier revision's webhook handlers:
`verifyShopifyWebhook(req.body, req.get('X-Shopify-Hmac-Sha256'))`.  When the
header is absent the digest string is compared to `undefined` with `===`,
which is `false`. -/
def webhookRequestValid (secret : List Nat) (req : WebhookRequest) : Bool :=
  match req.hmacHeader with
  | some h => verifyShopifyWebhook secret req.body h
  | none => false

/-- `POST /webhooks/orders/create` from the earlier server revision
(`src/extensions/checkout-extension.js`, lines 926-936): responds
`401 'Unauthorized'` when the HMAC check fails, `200 'OK'` otherwise. -/
def ordersCreateHandlerV1 (secret : List Nat) (req : WebhookRequest) : HttpResponse :=
  if !webhookRequestValid secret req then ⟨401, "Unauthorized"⟩ else ⟨200, "OK"⟩

/-- `POST /webhooks/app/uninstalled` from the earlier server revision
(`src/extensions/checkout-extension.js`, lines 938-949): responds
`401 'Unauthorized'` when the HMAC check fails, `200 'OK'` otherwise. -/
def appUninstalledHandlerV1 (secret : List Nat) (req : WebhookRequest) : HttpResponse :=
  if !webhookRequestValid secret req then ⟨401, "Unauthorized"⟩ else ⟨200, "OK"⟩

/-!
## GraphQL admin requests
-/

/-- The HTTP request `makeShopifyRequest` issues with `fetch`: the admin
GraphQL URL, the `X-Shopify-Access-Token` header value, and the JSON body
fields `query` and `variables` (the latter named `vars` here: `variables` is
a reserved word in Lean). -/
structure GraphQLRequest where
  url : String
  accessToken : JsVal
  query : String
  vars : JsVal

/-- Outcome of `makeShopifyRequest`: the value returned or the message of the
thrown error, and the request issued to `fetch` (if any was issued).  `none`
inside `Except.ok` is JavaScript `undefined`. -/
structure ShopifyRequestResult where
  result : Except String (Option JsVal)
  sent : Option GraphQLRequest

/-- Rendering of one element of `result.errors.map(e => e.message)` inside
`Array.prototype.join`: strings verbatim, numbers and booleans via
`String(...)`, `null`/`undefined` as the empty string (objects and arrays do
not occur in GraphQL error lists and render as the empty string here). -/
def errMessageStr (e : JsVal) : String :=
  match e.lookup "message" with
  | some (.vStr m) => m
  | some (.vNum n) => toString n
  | some (.vBool b) => if b then "true" else "false"
  | _ => ""

/-- `Array.prototype.join(', ')`. -/
def joinComma : List String → String
  | [] => ""
  | [s] => s
  | s :: rest => s ++ ", " ++ joinComma rest

/-- `makeShopifyRequest(shop, query, variables)` from `src/server.js`
(lines 144-164).  Throws immediately when `getShopAccessToken(shop)` yields
no token; otherwise issues the GraphQL request (its response, `await
response.json()`, is the oracle `respond`), throws on a truthy
`result.errors` (a `TypeError` when the parsed response is `null` or its
`errors` field is a truthy non-array), and returns `result.data`. -/
def makeShopifyRequest (tokenFile : FileState) (shop query : String) (vars : JsVal)
    (respond : GraphQLRequest → JsVal) : ShopifyRequestResult :=
  match getShopAccessToken tokenFile shop with
  | none => ⟨.error ("No access token found for shop: " ++ shop), none⟩
  | some tok =>
    let req : GraphQLRequest :=
      ⟨"https://" ++ shop ++ "/admin/api/2024-07/graphql.json", tok, query, vars⟩
    let res : Except String (Option JsVal) :=
      match respond req with
      | .vNull => .error "TypeError: Cannot read properties of null"
      | r =>
        match r.lookup "errors" with
        | some errs =>
          if jsTruthy errs then
            match errs with
            | .vArr l => .error ("GraphQL errors: " ++ joinComma (l.map errMessageStr))
            | _ => .error "TypeError: result.errors.map is not a function"
          else .ok (r.lookup "data")
        | none => .ok (r.lookup "data")
    ⟨res, some req⟩

/-!
## OAuth callback and payment-method activation
-/

/-- Truthiness of a possibly-`undefined` property value (`!expr`). -/
def jsTruthyOpt : Option JsVal → Bool
  | some v => jsTruthy v
  | none => false

/-- The token-exchange response seen by `/auth/callback`:
`tokenResponse.ok` and the parsed JSON body `tokenData`. -/
structure ExchangeResp where
  ok : Bool
  body : JsVal

/-- Outcome of `/auth/callback`: response status, resulting
`shop-tokens.json` state, and whether the token exchange `fetch` and
`storeShopToken` were reached. -/
structure AuthCallbackResult where
  status : Nat
  tokenFile : FileState
  exchangeCalled : Bool
  storeCalled : Bool

/-- `GET /auth/callback` from `src/server.js` (lines 284-332).  Responds 400
without exchanging or storing when `shop` or `code` is missing (or empty,
which is equally falsy); otherwise exchanges the code (`exchange` is the
`fetch` + `json()` oracle), responds 400 when `tokenResponse.ok` is false or
`tokenData.access_token` is falsy, 500 when reading `access_token` off a
`null` body throws (caught by the route's `try/catch`), and otherwise stores
the token and redirects (302). -/
def authCallback (exchange : String → String → ExchangeResp) (tokenFile : FileState)
    (shop code _state : Option String) (now : String) : AuthCallbackResult :=
  if !jsTruthyStr shop || !jsTruthyStr code then
    ⟨400, tokenFile, false, false⟩
  else
    let shopS := shop.getD ""
    let resp := exchange shopS (code.getD "")
    if !resp.ok then ⟨400, tokenFile, true, false⟩
    else
      match resp.body with
      | .vNull => ⟨500, tokenFile, true, false⟩
      | tokenData =>
        let access := tokenData.lookup "access_token"
        if !jsTruthyOpt access then ⟨400, tokenFile, true, false⟩
        else
          ⟨302, storeShopToken tokenFile shopS (access.getD .vNull) now, true, true⟩

/-- Outcome of `/activate-payment-method`: response status, resulting
`merchant-configs.json` state, and whether the JSON response carried
`success: true`. -/
structure ActivateResult where
  status : Nat
  configFile : FileState
  success : Bool

/-- `POST /activate-payment-method` from `src/server.js` (lines 336-384).
Responds 400 when `req.body.shop` is falsy and 401 when no access token is
stored for the shop; otherwise runs `createScriptTag` (abstracted by the
oracle `scriptTagResult`: `.error` is a thrown failure — request error or
`userErrors` — caught by the route's `try/catch` as 500), stores the
merchant config `\x7b script_tag_id: scriptTag.id, activated_at \x7d` and
responds with `success: true` (status 200).  A `null` script tag makes
`scriptTag.id` throw (500); an object without `id` stores no
`script_tag_id` key (`JSON.stringify` drops `undefined` properties). -/
def activatePaymentMethod (tokenFile configFile : FileState) (shop : Option String)
    (scriptTagResult : Except String JsVal) (now : String) : ActivateResult :=
  if !jsTruthyStr shop then ⟨400, configFile, false⟩
  else
    let shopS := shop.getD ""
    match getShopAccessToken tokenFile shopS with
    | none => ⟨401, configFile, false⟩
    | some _ =>
      match scriptTagResult with
      | .error _ => ⟨500, configFile, false⟩
      | .ok .vNull => ⟨500, configFile, false⟩
      | .ok tag =>
        let idField : List (String × JsVal) :=
          match tag.lookup "id" with
          | some v => [("script_tag_id", v)]
          | none => []
        let stored := storeMerchantConfig configFile shopS
          (idField ++ [("activated_at", .vStr now)]) now
        ⟨200, stored.1, true⟩

/-!
## Client-side DOM scripts

The DOM is modelled abstractly: elements are identifiers (`Nat`), and a DOM
state provides `document.querySelector`, `Element.closest` and
`Element.parentElement` as functions.  Any assignment of these functions is
a possible page, so the theorems quantify over all pages.
-/

/-- A checkout-page DOM as consulted by `findPaymentSection`:
`querySelector`, `closest` and `parentElement`. -/
structure CheckoutDOM where
  query : String → Option Nat
  closest : Nat → String → Option Nat
  parent : Nat → Option Nat

/-- The ordered selector list of `findPaymentSection`
(`src/server.js`, lines 447-457). -/
def paymentSelectors : List String :=
  [".payment-methods",
   "[data-step=\"payment_method\"]",
   ".section--payment-method",
   "[data-payment-form]",
   ".payment-method-list",
   ".step__sections",
   ".payment-due",
   ".payment-options",
   "#payment-gateway"]

/-- The credit-card fallback selector of `findPaymentSection`
(`src/server.js`, line 468). -/
def creditCardSelector : String := "[data-credit-card], .credit-card, #credit-card"

/-- First-match search: `for (const selector of list) \x7b if
(document.querySelector(selector)) return it \x7d`. -/
def firstQueryMatch (query : String → Option Nat) : List String → Option Nat
  | [] => none
  | s :: rest =>
    match query s with
    | some e => some e
    | none => firstQueryMatch query rest

/-- `findPaymentSection()` from the script served by `src/server.js`
(lines 441-476): returns the first match of `paymentSelectors`; failing
that, if the credit-card fallback matches it returns
`creditCardElement.closest('.section') || creditCardElement.parentElement`
(which is `null` when the element has neither); otherwise `null`. -/
def findPaymentSection (d : CheckoutDOM) : Option Nat :=
  match firstQueryMatch d.query paymentSelectors with
  | some e => some e
  | none =>
    match d.query creditCardSelector with
    | some cc => (d.closest cc ".section").orElse (fun _ => d.parent cc)
    | none => none

/-- A storefront/checkout page as consulted by `addCryptoButton`
(`src/extensions/checkout-extension.js`, lines 2-117).  `cryptoBtnCount` is
the number of elements with id `crypto-pay-btn` in the document
(`getElementById` finds one exactly when it is positive); `onCheckoutPage`
is the URL test of lines 10-12.  The injected button (`<button
id="crypto-pay-btn" type="button">` with no `name` and no class) matches
none of the selectors the script queries, so `query` and `parent` are
unchanged by an insertion. -/
structure StorefrontDOM where
  cryptoBtnCount : Nat
  onCheckoutPage : Bool
  query : String → Option Nat
  parent : Nat → Option Nat

/-- The ordered checkout-page selector list of `addCryptoButton`
(`src/extensions/checkout-extension.js`, lines 17-27). -/
def checkoutSectionSelectors : List String :=
  [".payment-methods",
   "[data-step=\"payment_method\"]",
   ".section--payment-method",
   "[data-payment-form]",
   ".payment-method-list",
   "form[data-payment-form]",
   ".payment-due-label",
   ".payment-due",
   ".step__footer"]

/-- The add-to-cart button selector (`src/extensions/checkout-extension.js`,
lines 46-48). -/
def addToCartSelector : String :=
  "form[action*=\"/cart/add\"] input[type=\"submit\"], button[name=\"add\"]"

/-- The cart checkout button selector
(`src/extensions/checkout-extension.js`, line 51). -/
def cartCheckoutSelector : String :=
  "form[action*=\"/checkout\"] [type=\"submit\"], .cart__checkout"

/-- `addCryptoButton()` from `src/extensions/checkout-extension.js`
(lines 2-117).  Returns unchanged when an element with id `crypto-pay-btn`
already exists.  On a checkout page the insertion point is the first match
of `checkoutSectionSelectors` (no match: return unchanged); otherwise it is
the parent of the add-to-cart or cart-checkout button (no button: return
unchanged).  The button is created and appended only when the insertion
point is non-null (the `if (insertionPoint)` guard of line 100), which adds
exactly one element with id `crypto-pay-btn`. -/
def addCryptoButton (d : StorefrontDOM) : StorefrontDOM :=
  if d.cryptoBtnCount != 0 then d
  else
    let insertionPoint : Option Nat :=
      if d.onCheckoutPage then
        firstQueryMatch d.query checkoutSectionSelectors
      else
        match (d.query addToCartSelector).orElse (fun _ => d.query cartCheckoutSelector) with
        | some targetBtn => d.parent targetBtn
        | none => none
    match insertionPoint with
    | none => d
    | some _ => { d with cryptoBtnCount := d.cryptoBtnCount + 1 }

/-!
## Concrete pages used as witnesses and counterexamples
-/

/-- A page on which only the credit-card fallback selector matches (for
example `<html class="credit-card">`: its `closest('.section')` is `null`
and, being the document element, its `parentElement` is `null`). -/
def ccOnlyDOM : CheckoutDOM :=
  ⟨fun s => if s == creditCardSelector then some 0 else none,
   fun _ _ => none,
   fun _ => none⟩

/-- A checkout page whose payment-methods section is present. -/
def paymentListDOM : CheckoutDOM :=
  ⟨fun s => if s == ".payment-methods" then some 5 else none,
   fun _ _ => none,
   fun _ => none⟩

/-- A storefront page that already contains the crypto button. -/
def btnPresentDOM : StorefrontDOM :=
  ⟨1, false, fun _ => none, fun _ => none⟩

/-!
## Helper lemmas
-/

set_option maxRecDepth 100000

theorem lookup_cons_self (k : String) (v : JsVal) (l : List (String × JsVal)) :
    List.lookup k ((k, v) :: l) = some v := by
  simp [List.lookup]

theorem lookup_cons_ne (k a : String) (v : JsVal) (l : List (String × JsVal)) (h : k ≠ a) :
    List.lookup k ((a, v) :: l) = List.lookup k l := by
  simp [List.lookup, beq_false_of_ne h]

theorem lookup_append_left (k : String) (v : JsVal) (l1 l2 : List (String × JsVal))
    (h : l1.lookup k = some v) : (l1 ++ l2).lookup k = some v := by
  induction l1 with
  | nil => simp [List.lookup] at h
  | cons p t ih =>
    obtain ⟨a, b⟩ := p
    by_cases hk : (k == a) = true
    · simpa [List.lookup, hk] using h
    · rw [Bool.not_eq_true] at hk
      simp only [List.lookup, hk] at h ⊢
      exact ih h

/-- The record written for `shop` by `storeMerchantConfig` is what a
following `getMerchantConfig` for the same shop returns. -/
theorem getMerchantConfig_after_store (file : FileState) (shp now : String)
    (config : List (String × JsVal)) :
    getMerchantConfig (storeMerchantConfig file shp config now).1 shp =
      some (.vObj (("updated_at", .vStr now) :: ("shop", .vStr shp) ::
        (config ++ spreadFields (file.mapOrEmpty.lookup shp)))) := by
  simp [storeMerchantConfig, getMerchantConfig, jsOrNull, lookup_cons_self, jsTruthy]

/-!
## Test vectors for the cryptographic primitives

FIPS 180-4 / RFC 4231 / RFC 4648 known-answer values, pinning the
implementations of `sha256`, `hmacSha256` and `base64Encode` used by
`verifyShopifyWebhook`.
-/

/-- SHA-256 of `"abc"` (FIPS 180-4 example). -/
theorem sha256_kat_abc :
    sha256 [97, 98, 99] =
      [186, 120, 22, 191, 143, 1, 207, 234, 65, 65, 64, 222, 93, 174, 34, 35,
       176, 3, 97, 163, 150, 23, 122, 156, 180, 16, 255, 97, 242, 0, 21, 173] := by
  rfl

/-- SHA-256 of the empty message. -/
theorem sha256_kat_empty :
    sha256 [] =
      [227, 176, 196, 66, 152, 252, 28, 20, 154, 251, 244, 200, 153, 111, 185, 36,
       39, 174, 65, 228, 100, 155, 147, 76, 164, 149, 153, 27, 120, 82, 184, 85] := by
  rfl

/-- HMAC-SHA256 with key `"key"` over the quick-brown-fox sentence, base64
encoded (standard known-answer value). -/
theorem hmacSha256_kat_fox :
    base64Encode (hmacSha256 ("key".toList.map Char.toNat)
        ("The quick brown fox jumps over the lazy dog".toList.map Char.toNat)) =
      "97yD9DBThCSxMpjmqm+xQ+9NWaFJRhdZl0edvC0aPNg=" := by
  rfl

/-- RFC 4648 base64 examples, including both padding cases. -/
theorem base64_kat :
    base64Encode [77, 97, 110] = "TWFu" ∧
    base64Encode [77, 97] = "TWE=" ∧
    base64Encode [77] = "TQ==" := by
  exact ⟨rfl, rfl, rfl⟩

/-!
## The claims
-/

/-- Claim C1: for every secret, every byte string `data` and every header
string `hmacHeader`, `verifyShopifyWebhook data hmacHeader` returns true if
and only if `hmacHeader` equals the base64 encoding of the HMAC-SHA256
digest of `data` keyed with the webhook secret. -/
theorem verifyShopifyWebhook_iff_base64_hmac (secret data : List Nat) (hmacHeader : String) :
    verifyShopifyWebhook secret data hmacHeader = true ↔
      hmacHeader = base64Encode (hmacSha256 secret data) := by
  show (base64Encode (hmacSha256 secret data) == hmacHeader) = true ↔ _
  rw [beq_iff_eq]
  exact eq_comm

/-- Claim C2 (code bug): the `src/server.js` webhook handlers for
orders/create and app/uninstalled respond `200 'OK'` without performing any
HMAC check — here evaluated at a request with body `\x7b\x7d` and header
`invalid`, a signature that is invalid (for the secret `secret`, byte-wise
`[115, 101, 99, 114, 101, 116]`); the earlier revision's handler rejects
the same request with `401`. -/
theorem webhook_handlers_skip_hmac_check :
    ordersCreateHandler ⟨[123, 125], some "invalid"⟩ = ⟨200, "OK"⟩ ∧
    appUninstalledHandler ⟨[123, 125], some "invalid"⟩ = ⟨200, "OK"⟩ ∧
    webhookRequestValid [115, 101, 99, 114, 101, 116] ⟨[123, 125], some "invalid"⟩ = false ∧
    ordersCreateHandlerV1 [115, 101, 99, 114, 101, 116] ⟨[123, 125], some "invalid"⟩ =
      ⟨401, "Unauthorized"⟩ := by
  have h : webhookRequestValid [115, 101, 99, 114, 101, 116]
      ⟨[123, 125], some "invalid"⟩ = false := by rfl
  exact ⟨rfl, rfl, h, by simp [ordersCreateHandlerV1, h]⟩

/-- Claim C3: when the `shop` or `code` query parameter of
`GET /auth/callback` is missing the handler responds 400, performs no token
exchange, and leaves the shop-token store unchanged; the exchange and
`storeShopToken` are reached only when both parameters are present. -/
theorem authCallback_missing_params_400 (exchange : String → String → ExchangeResp)
    (tokenFile : FileState) (shop code st : Option String) (now : String) :
    (shop = none ∨ code = none →
      authCallback exchange tokenFile shop code st now = ⟨400, tokenFile, false, false⟩) ∧
    ((authCallback exchange tokenFile shop code st now).exchangeCalled = true →
      ∃ s c, shop = some s ∧ code = some c) ∧
    ((authCallback exchange tokenFile shop code st now).storeCalled = true →
      ∃ s c, shop = some s ∧ code = some c) := by
  refine ⟨?_, ?_, ?_⟩
  · rintro (rfl | rfl) <;> simp [authCallback, jsTruthyStr]
  · intro h
    cases shop with
    | none => simp [authCallback, jsTruthyStr] at h
    | some s =>
      cases code with
      | none => simp [authCallback, jsTruthyStr] at h
      | some c => exact ⟨s, c, rfl, rfl⟩
  · intro h
    cases shop with
    | none => simp [authCallback, jsTruthyStr] at h
    | some s =>
      cases code with
      | none => simp [authCallback, jsTruthyStr] at h
      | some c => exact ⟨s, c, rfl, rfl⟩

/-- Witness for C3: a callback with a missing `shop` parameter responds 400
and leaves the (absent) token file untouched. -/
theorem authCallback_missing_params_400_witness :
    authCallback (fun _ _ => ⟨true, JsVal.vNull⟩) FileState.absent none (some "abc") none "T" =
      ⟨400, FileState.absent, false, false⟩ :=
  (authCallback_missing_params_400 (fun _ _ => ⟨true, JsVal.vNull⟩) FileState.absent
    none (some "abc") none "T").1 (Or.inl rfl)

/-- Claim C4: whenever `POST /activate-payment-method` completes
successfully (it responds with `success: true`), the merchant config stored
for the shop carries the activation marker: a later `getMerchantConfig`
returns a record whose `activated_at` field is the activation timestamp. -/
theorem activatePaymentMethod_success_records_activation
    (tokenFile configFile : FileState) (shop : Option String)
    (tagRes : Except String JsVal) (now : String)
    (h : (activatePaymentMethod tokenFile configFile shop tagRes now).success = true) :
    ∃ fields,
      getMerchantConfig (activatePaymentMethod tokenFile configFile shop tagRes now).configFile
          (shop.getD "") = some (.vObj fields) ∧
      fields.lookup "activated_at" = some (.vStr now) := by
  by_cases hts : jsTruthyStr shop = true
  case neg =>
    rw [Bool.not_eq_true] at hts
    simp [activatePaymentMethod, hts] at h
  case pos =>
    rcases hat : getShopAccessToken tokenFile (shop.getD "") with _ | tok
    · simp [activatePaymentMethod, hts, hat] at h
    · rcases tagRes with err | tag
      · simp [activatePaymentMethod, hts, hat] at h
      · cases tag with
        | vNull => simp [activatePaymentMethod, hts, hat] at h
        | vObj fields0 =>
          rcases hid : fields0.lookup "id" with _ | v
          · simp [activatePaymentMethod, hts, hat, JsVal.lookup, hid]
            rw [getMerchantConfig_after_store]
            refine ⟨_, rfl, ?_⟩
            simp [List.lookup]
          · simp [activatePaymentMethod, hts, hat, JsVal.lookup, hid]
            rw [getMerchantConfig_after_store]
            refine ⟨_, rfl, ?_⟩
            simp [List.lookup]
        | vBool b =>
          simp [activatePaymentMethod, hts, hat, JsVal.lookup]
          rw [getMerchantConfig_after_store]
          refine ⟨_, rfl, ?_⟩
          simp [List.lookup]
        | vNum n =>
          simp [activatePaymentMethod, hts, hat, JsVal.lookup]
          rw [getMerchantConfig_after_store]
          refine ⟨_, rfl, ?_⟩
          simp [List.lookup]
        | vStr s =>
          simp [activatePaymentMethod, hts, hat, JsVal.lookup]
          rw [getMerchantConfig_after_store]
          refine ⟨_, rfl, ?_⟩
          simp [List.lookup]
        | vArr elems =>
          simp [activatePaymentMethod, hts, hat, JsVal.lookup]
          rw [getMerchantConfig_after_store]
          refine ⟨_, rfl, ?_⟩
          simp [List.lookup]

/-- Witness for C4: a successful activation for shop `s1.myshopify.com`
(token present, script tag created) stores a record whose `activated_at` is
the activation time. -/
theorem activatePaymentMethod_success_records_activation_witness :
    ∃ fields,
      getMerchantConfig
          (activatePaymentMethod
            (FileState.parsed [("s1.myshopify.com",
              JsVal.vObj [("access_token", JsVal.vStr "tok")])])
            FileState.absent (some "s1.myshopify.com")
            (Except.ok (JsVal.vObj [("id", JsVal.vStr "gid1")])) "T").configFile
          ((some "s1.myshopify.com").getD "") = some (.vObj fields) ∧
      fields.lookup "activated_at" = some (.vStr "T") :=
  activatePaymentMethod_success_records_activation
    (FileState.parsed [("s1.myshopify.com", JsVal.vObj [("access_token", JsVal.vStr "tok")])])
    FileState.absent (some "s1.myshopify.com")
    (Except.ok (JsVal.vObj [("id", JsVal.vStr "gid1")])) "T" (by rfl)

/-- First-match search returns `none` when no selector matches. -/
theorem firstQueryMatch_none (q : String → Option Nat) (l : List String)
    (h : ∀ s ∈ l, q s = none) : firstQueryMatch q l = none := by
  induction l with
  | nil => rfl
  | cons s rest ih =>
    have hs : q s = none := h s (List.mem_cons_self s rest)
    simp [firstQueryMatch, hs, ih (fun t ht => h t (List.mem_cons_of_mem s ht))]

/-- First-match search skips a prefix of non-matching selectors. -/
theorem firstQueryMatch_append_none (q : String → Option Nat) (l1 l2 : List String)
    (h : ∀ s ∈ l1, q s = none) :
    firstQueryMatch q (l1 ++ l2) = firstQueryMatch q l2 := by
  induction l1 with
  | nil => rfl
  | cons s rest ih =>
    have hs : q s = none := h s (List.mem_cons_self s rest)
    simp [firstQueryMatch, hs, ih (fun t ht => h t (List.mem_cons_of_mem s ht))]

/-- First-match search finds the first matching selector after a prefix of
non-matching ones. -/
theorem firstQueryMatch_prefix (q : String → Option Nat) (l1 : List String) (s : String)
    (l2 : List String) (e : Nat) (h1 : ∀ t ∈ l1, q t = none) (hq : q s = some e) :
    firstQueryMatch q (l1 ++ s :: l2) = some e := by
  rw [firstQueryMatch_append_none _ _ _ h1]
  simp [firstQueryMatch, hq]

/-- When the selector list has a match, `findPaymentSection` returns it. -/
theorem findPaymentSection_of_firstQueryMatch (d : CheckoutDOM) (e : Nat)
    (h : firstQueryMatch d.query paymentSelectors = some e) :
    findPaymentSection d = some e := by
  unfold findPaymentSection
  rw [h]

/-- When the selector list has no match, `findPaymentSection` falls through
to the credit-card fallback. -/
theorem findPaymentSection_of_no_list_match (d : CheckoutDOM)
    (h : firstQueryMatch d.query paymentSelectors = none) :
    findPaymentSection d =
      (match d.query creditCardSelector with
        | some cc => (d.closest cc ".section").orElse (fun _ => d.parent cc)
        | none => none) := by
  unfold findPaymentSection
  rw [h]

/-- Claim C5 counterexample: on a page where no selector of the fixed list
matches but the credit-card fallback does match — an element with neither a
`.section` ancestor nor a parent — `findPaymentSection` returns `null`,
although the claim asserts `null` is returned only when neither the list
nor the fallback matches anything. -/
theorem findPaymentSection_fallback_null_cex :
    (∀ s ∈ paymentSelectors, ccOnlyDOM.query s = none) ∧
    ccOnlyDOM.query creditCardSelector = some 0 ∧
    findPaymentSection ccOnlyDOM = none := by
  refine ⟨?_, rfl, rfl⟩
  decide

/-- Claim C5 (amended): `findPaymentSection` is a first-match search over
its fixed selector list; when no listed selector matches but the
credit-card fallback matches an element `cc`, it returns `cc`'s closest
`.section` ancestor-or-self if any, else `cc`'s parent element if any (and
hence `null` when `cc` has neither); it returns `null` when neither the
list nor the fallback matches anything. -/
theorem findPaymentSection_characterization (d : CheckoutDOM) :
    (∀ l1 s l2, paymentSelectors = l1 ++ s :: l2 →
      (∀ t ∈ l1, d.query t = none) → d.query s ≠ none →
      findPaymentSection d = d.query s) ∧
    ((∀ s ∈ paymentSelectors, d.query s = none) →
      ∀ cc, d.query creditCardSelector = some cc →
        findPaymentSection d = (d.closest cc ".section").orElse (fun _ => d.parent cc)) ∧
    ((∀ s ∈ paymentSelectors, d.query s = none) →
      d.query creditCardSelector = none →
      findPaymentSection d = none) := by
  refine ⟨?_, ?_, ?_⟩
  · intro l1 s l2 heq h1 hs
    rcases hq : d.query s with _ | e
    · exact absurd hq hs
    · refine findPaymentSection_of_firstQueryMatch d e ?_
      rw [heq]
      exact firstQueryMatch_prefix d.query l1 s l2 e h1 hq
  · intro hall cc hcc
    rw [findPaymentSection_of_no_list_match d (firstQueryMatch_none _ _ hall), hcc]
  · intro hall hcc
    rw [findPaymentSection_of_no_list_match d (firstQueryMatch_none _ _ hall), hcc]

/-- Witness for C5: on a page whose `.payment-methods` section exists, the
earliest selector wins. -/
theorem findPaymentSection_characterization_witness :
    findPaymentSection paymentListDOM = paymentListDOM.query ".payment-methods" :=
  (findPaymentSection_characterization paymentListDOM).1 [] ".payment-methods"
    ["[data-step=\"payment_method\"]", ".section--payment-method", "[data-payment-form]",
     ".payment-method-list", ".step__sections", ".payment-due", ".payment-options",
     "#payment-gateway"]
    rfl (by simp) (by decide)

/-- Claim C6 counterexample: for a config that itself carries an
`updated_at` pair, the stored record does not contain that pair — the
function overwrites `updated_at` with the write timestamp, so the record read
back maps `updated_at` to `"T"`, not to the config's `"x"`. -/
theorem storeMerchantConfig_overrides_updated_at_cex :
    List.lookup "updated_at" [("updated_at", JsVal.vStr "x")] = some (JsVal.vStr "x") ∧
    jsOptChain (getMerchantConfig
        (storeMerchantConfig FileState.absent "s" [("updated_at", JsVal.vStr "x")] "T").1 "s")
      "updated_at" = some (JsVal.vStr "T") ∧
    JsVal.vStr "T" ≠ JsVal.vStr "x" := by
  refine ⟨rfl, rfl, ?_⟩
  intro hcontra
  injection hcontra with h2
  exact absurd h2 (by decide)

/-- Claim C6 (amended): after `storeMerchantConfig(shop, config)`,
`getMerchantConfig(shop)` returns a non-null record containing every
key-value pair of `config` except for the keys `shop` and `updated_at`
(which the function overwrites), with the `shop` field set to `shop`. -/
theorem storeMerchantConfig_roundtrip (file : FileState) (shp : String)
    (config : List (String × JsVal)) (now k : String) (v : JsVal)
    (hk1 : k ≠ "shop") (hk2 : k ≠ "updated_at") (hv : config.lookup k = some v) :
    ∃ fields,
      getMerchantConfig (storeMerchantConfig file shp config now).1 shp =
        some (.vObj fields) ∧
      fields.lookup k = some v ∧
      fields.lookup "shop" = some (.vStr shp) := by
  rw [getMerchantConfig_after_store]
  refine ⟨_, rfl, ?_, ?_⟩
  · rw [lookup_cons_ne _ _ _ _ hk2, lookup_cons_ne _ _ _ _ hk1]
    exact lookup_append_left _ _ _ _ hv
  · rw [lookup_cons_ne "shop" "updated_at" _ _ (by decide)]
    exact lookup_cons_self _ _ _

/-- Witness for C6: storing `\x7b a: 1 \x7d` for shop `s2` makes the read-back
record map `a` to `1` and `shop` to `s2`. -/
theorem storeMerchantConfig_roundtrip_witness :
    ∃ fields,
      getMerchantConfig
          (storeMerchantConfig FileState.absent "s2" [("a", JsVal.vNum 1)] "T").1 "s2" =
        some (.vObj fields) ∧
      fields.lookup "a" = some (JsVal.vNum 1) ∧
      fields.lookup "shop" = some (.vStr "s2") :=
  storeMerchantConfig_roundtrip FileState.absent "s2" [("a", JsVal.vNum 1)] "T" "a"
    (JsVal.vNum 1) (by decide) (by decide) rfl

/-- Claim C7: storing a config for shop `s1` leaves the record
`getMerchantConfig` returns for any other shop `s2` unchanged. -/
theorem storeMerchantConfig_frame (file : FileState) (s1 s2 : String)
    (config : List (String × JsVal)) (now : String) (h : s1 ≠ s2) :
    getMerchantConfig (storeMerchantConfig file s1 config now).1 s2 =
      getMerchantConfig file s2 := by
  cases file with
  | parsed m =>
    simp only [storeMerchantConfig, getMerchantConfig, FileState.mapOrEmpty]
    rw [lookup_cons_ne _ _ _ _ (Ne.symm h)]
  | absent =>
    simp only [storeMerchantConfig, getMerchantConfig, FileState.mapOrEmpty]
    rw [lookup_cons_ne _ _ _ _ (Ne.symm h)]
    rfl
  | unparseable =>
    simp only [storeMerchantConfig, getMerchantConfig, FileState.mapOrEmpty]
    rw [lookup_cons_ne _ _ _ _ (Ne.symm h)]
    rfl

/-- Witness for C7: writing shop `a` does not change what is read for
shop `b`. -/
theorem storeMerchantConfig_frame_witness :
    getMerchantConfig (storeMerchantConfig FileState.absent "a" [] "T").1 "b" =
      getMerchantConfig FileState.absent "b" :=
  storeMerchantConfig_frame FileState.absent "a" "b" [] "T" (by decide)

/-- Claim C8: `makeShopifyRequest` throws `No access token found for shop:
...` without issuing the GraphQL HTTP request when no token is stored, and a
request is issued only when `getShopAccessToken` returns a token (which the
request then carries in its `X-Shopify-Access-Token` header). -/
theorem makeShopifyRequest_requires_token (tokenFile : FileState) (shop query : String)
    (vars : JsVal) (respond : GraphQLRequest → JsVal) :
    (getShopAccessToken tokenFile shop = none →
      makeShopifyRequest tokenFile shop query vars respond =
        ⟨.error ("No access token found for shop: " ++ shop), none⟩) ∧
    (∀ req, (makeShopifyRequest tokenFile shop query vars respond).sent = some req →
      getShopAccessToken tokenFile shop = some req.accessToken) ∧
    (∀ t, getShopAccessToken tokenFile shop = some t →
      ∃ req, (makeShopifyRequest tokenFile shop query vars respond).sent = some req) := by
  rcases hat : getShopAccessToken tokenFile shop with _ | tok
  · refine ⟨fun _ => by simp [makeShopifyRequest, hat], ?_, ?_⟩
    · intro req hreq
      simp [makeShopifyRequest, hat] at hreq
    · intro t ht
      exact Option.noConfusion ht
  · refine ⟨?_, ?_, ?_⟩
    · intro h
      exact Option.noConfusion h
    · intro req hreq
      simp only [makeShopifyRequest, hat, Option.some.injEq] at hreq
      subst hreq
      rfl
    · intro t _
      exact ⟨⟨"https://" ++ shop ++ "/admin/api/2024-07/graphql.json", tok, query, vars⟩,
        by simp [makeShopifyRequest, hat]⟩

/-- Witness for C8: with no token file, the call throws the missing-token
error and issues no request. -/
theorem makeShopifyRequest_requires_token_witness :
    makeShopifyRequest FileState.absent "s1.myshopify.com" "q" JsVal.vNull
        (fun _ => JsVal.vNull) =
      ⟨.error ("No access token found for shop: " ++ "s1.myshopify.com"), none⟩ :=
  (makeShopifyRequest_requires_token FileState.absent "s1.myshopify.com" "q" JsVal.vNull
    (fun _ => JsVal.vNull)).1 rfl

/-- `v?.k` equals plain property access for every value `v` (both give
`undefined` on `null`). -/
theorem jsOptChain_some (v : JsVal) (k : String) : jsOptChain (some v) k = v.lookup k := by
  cases v <;> rfl

/-- Claim C9 counterexample: a parsed `merchant-configs.json` that maps a
shop to the falsy value `0` has an entry for that shop, yet
`getMerchantConfig` returns `null`, not the stored value (the `|| null`
step discards falsy entries). -/
theorem getMerchantConfig_falsy_entry_cex :
    List.lookup "shopA" [("shopA", JsVal.vNum 0)] = some (JsVal.vNum 0) ∧
    getMerchantConfig (FileState.parsed [("shopA", JsVal.vNum 0)]) "shopA" = none :=
  ⟨rfl, rfl⟩

/-- Claim C9 (amended): `getMerchantConfig` and `getShopAccessToken` are
total (modelled as total functions; every read/parse failure is caught);
`getMerchantConfig` returns the stored entry when the file parses and the
entry is present and truthy, and `null` in every other case;
`getShopAccessToken` returns the entry's `access_token` field when the file
parses, the entry is present and the field is present and truthy, and
`null` in every other case. -/
theorem storeReaders_total_characterization (m : List (String × JsVal)) (shop : String) :
    (getMerchantConfig FileState.absent shop = none ∧
     getMerchantConfig FileState.unparseable shop = none ∧
     getShopAccessToken FileState.absent shop = none ∧
     getShopAccessToken FileState.unparseable shop = none) ∧
    (m.lookup shop = none →
      getMerchantConfig (FileState.parsed m) shop = none ∧
      getShopAccessToken (FileState.parsed m) shop = none) ∧
    (∀ v, m.lookup shop = some v → jsTruthy v = true →
      getMerchantConfig (FileState.parsed m) shop = some v) ∧
    (∀ v, m.lookup shop = some v → jsTruthy v = false →
      getMerchantConfig (FileState.parsed m) shop = none) ∧
    (∀ v t, m.lookup shop = some v → v.lookup "access_token" = some t → jsTruthy t = true →
      getShopAccessToken (FileState.parsed m) shop = some t) ∧
    (∀ v t, m.lookup shop = some v → v.lookup "access_token" = some t → jsTruthy t = false →
      getShopAccessToken (FileState.parsed m) shop = none) ∧
    (∀ v, m.lookup shop = some v → v.lookup "access_token" = none →
      getShopAccessToken (FileState.parsed m) shop = none) := by
  refine ⟨⟨rfl, rfl, rfl, rfl⟩, ?_, ?_, ?_, ?_, ?_, ?_⟩
  · intro h
    exact ⟨by simp [getMerchantConfig, h, jsOrNull],
           by simp [getShopAccessToken, h, jsOptChain, jsOrNull]⟩
  · intro v hv htr
    simp [getMerchantConfig, hv, jsOrNull, htr]
  · intro v hv htr
    simp [getMerchantConfig, hv, jsOrNull, htr]
  · intro v t hv ht htr
    simp [getShopAccessToken, hv, jsOptChain_some, ht, jsOrNull, htr]
  · intro v t hv ht htr
    simp [getShopAccessToken, hv, jsOptChain_some, ht, jsOrNull, htr]
  · intro v hv ht
    simp [getShopAccessToken, hv, jsOptChain_some, ht, jsOrNull]

/-- Witness for C9: a parsed file with a truthy record for shop `s` is
returned as stored. -/
theorem storeReaders_total_characterization_witness :
    getMerchantConfig (FileState.parsed [("s", JsVal.vObj [])]) "s" =
      some (JsVal.vObj []) :=
  ((storeReaders_total_characterization [("s", JsVal.vObj [])] "s").2.2.1)
    (JsVal.vObj []) rfl rfl

/-- One run of `addCryptoButton` never pushes the number of crypto buttons
above `max 1` of what was already there. -/
theorem addCryptoButton_count_le (d : StorefrontDOM) :
    (addCryptoButton d).cryptoBtnCount ≤ max 1 d.cryptoBtnCount := by
  by_cases h : d.cryptoBtnCount = 0
  · simp only [addCryptoButton, h]
    split
    · simp [h]
    · split <;> simp [h]
  · have hc : (d.cryptoBtnCount != 0) = true := by simp [bne_iff_ne]; omega
    simp only [addCryptoButton, hc, if_true]
    exact le_max_right _ _

/-- A run on a page that already contains the button changes nothing. -/
theorem addCryptoButton_noop (d : StorefrontDOM) (h : 0 < d.cryptoBtnCount) :
    addCryptoButton d = d := by
  have hc : (d.cryptoBtnCount != 0) = true := by simp [bne_iff_ne]; omega
  simp [addCryptoButton, hc]

/-- Claim C10: idempotence of the button injection — any number of runs of
`addCryptoButton` (initial run, observer callback, retry timers) leaves at
most one element with id `crypto-pay-btn` on a page that did not already
contain one (in general: never more than `max 1` of the initial count), and
a run on a page that already contains the element changes nothing. -/
theorem addCryptoButton_idempotent (d : StorefrontDOM) (n : Nat) :
    (addCryptoButton^[n] d).cryptoBtnCount ≤ max 1 d.cryptoBtnCount ∧
    (0 < d.cryptoBtnCount → addCryptoButton d = d) := by
  constructor
  · induction n generalizing d with
    | zero =>
      rw [Function.iterate_zero_apply]
      exact le_max_right 1 d.cryptoBtnCount
    | succ n ih =>
      rw [Function.iterate_succ_apply]
      calc (addCryptoButton^[n] (addCryptoButton d)).cryptoBtnCount
          ≤ max 1 (addCryptoButton d).cryptoBtnCount := ih _
        _ ≤ max 1 (max 1 d.cryptoBtnCount) :=
            max_le_max (le_refl 1) (addCryptoButton_count_le d)
        _ = max 1 d.cryptoBtnCount := by rw [← max_assoc, max_self]
  · exact addCryptoButton_noop d

/-- Witness for C10: a page already holding the button is left unchanged. -/
theorem addCryptoButton_idempotent_witness :
    addCryptoButton btnPresentDOM = btnPresentDOM :=
  (addCryptoButton_idempotent btnPresentDOM 0).2 (by decide)

end Cryptocadet
